import Mathlib

/-!
Shallow embedding of the LiveSplit.SonicMurder autosplitter (src/lib.rs).

The autosplitter polls the memory of "The Murder of Sonic The Hedgehog",
reads a 90-element u16 dialogue buffer through a 4-level pointer chase and
derives start/split/reset events for an external timer.  Machine integers
are modelled as `Nat` with explicit `% 2^64` where u64 overflow matters;
fallible process-memory reads are `Option`-valued functions supplied by an
environment record, one environment per poll tick.
-/

set_option maxRecDepth 100000

namespace SonicMurder

/-- Wrap-around modulus for u64 arithmetic. -/
def u64Mod : Nat := 2 ^ 64

/-- Timer phases of the external timer (asr `TimerState`). -/
inductive TimerState
  | NotRunning
  | Running
  | Paused
  | Ended
deriving DecidableEq

/-- Timer commands the core can issue to the external timer during a tick,
in the order they are issued. -/
inductive Event
  | startTimer
  | splitTimer
  | resetTimer
  | pauseGameTime
  | resumeGameTime
  | setGameTime
deriving DecidableEq

/-- The eleven boolean configuration flags (`struct Settings` in lib.rs). -/
structure Settings where
  start : Bool
  reset : Bool
  station : Bool
  closet : Bool
  saloon : Bool
  library : Bool
  casino : Bool
  lounge : Bool
  conductor : Bool
  sonic_chase : Bool
  ending : Bool
deriving DecidableEq

/-- Default values of the flags: every `#[default = true]` in lib.rs. -/
def Settings.defaults : Settings :=
  ⟨true, true, true, true, true, true, true, true, true, true, true⟩

/-- Readable process memory of the target game: fallible typed reads
(`Process::read`), one function per width used by the code. -/
structure Mem where
  read64 : Nat → Option Nat
  read32 : Nat → Option Nat
  readBuf90 : Nat → Option (List Nat)

/-- Resolved address record (`struct MemoryPtr`). -/
structure MemoryPtr where
  dialogue_base_address : Nat
deriving DecidableEq

/-- Per-attach session data (`struct ProcessInfo`): module geometry plus the
lazily resolved address. -/
structure ProcessInfo where
  unity_module_base : Nat
  unity_module_size : Nat
  addresses : Option MemoryPtr
deriving DecidableEq

/-- Current/previous dialogue sample pair (asr `Pair`), modelled from the
spec of the external watcher interface: holds the current and the previous
sample. -/
structure DPair where
  old : List Nat
  current : List Nat
deriving DecidableEq

/-- The pair changed iff current differs from previous. -/
def DPair.changed (p : DPair) : Bool := decide (p.current ≠ p.old)

/-- Global autosplitter state (`struct State`): the attach session, the
cached settings record and the dialogue watcher pair. -/
structure State where
  game : Option ProcessInfo
  settings : Option Settings
  pair : Option DPair
deriving DecidableEq

/-- External world of one poll tick: attach/module lookup results, process
openness, signature-scan result, readable memory, the timer phase at the
start of the tick, whether a split would end the run, and the flag values a
`Settings::register` call would return on this tick. -/
structure Env where
  procFound : Bool
  moduleBase : Option Nat
  moduleSize : Option Nat
  isOpen : Bool
  scanHit : Option Nat
  mem : Mem
  phase : TimerState
  splitEndsRun : Bool
  registeredSettings : Settings

/-- The all-zero dialogue sample. -/
def zero90 : List Nat := List.replicate 90 0

/-- Copy-until-first-zero with zero padding: the truncation loop of
`State::update` applied to a successfully read raw buffer. -/
def truncPad (st : List Nat) : List Nat :=
  let t := st.takeWhile (fun v => v ≠ 0)
  t ++ List.replicate (90 - t.length) 0

/-- The 4-level pointer chase of `State::update`: read a pointer at the
base, at +0xB0, at +0xD70, at +0x80, then the 90-element u16 buffer at
+0x14.  `none` when any read fails. -/
def chaseRaw (m : Mem) (base : Nat) : Option (List Nat) :=
  match m.read64 base with
  | none => none
  | some addr_base =>
    match m.read64 ((addr_base + 0xB0) % u64Mod) with
    | none => none
    | some addr_1 =>
      match m.read64 ((addr_1 + 0xD70) % u64Mod) with
      | none => none
      | some addr_2 =>
        match m.read64 ((addr_2 + 0x80) % u64Mod) with
        | none => none
        | some addr_3 =>
          match m.readBuf90 ((addr_3 + 0x14) % u64Mod) with
          | none => none
          | some st => some (truncPad st)

/-- The dialogue sample recorded for a tick: the chased buffer on success,
the all-zero sample when any step of the chase fails. -/
def chase (m : Mem) (base : Nat) : List Nat :=
  (chaseRaw m base).getD zero90

/-- Push a new sample into the watcher pair (asr `Watcher::update` with a
`Some` argument, modelled from the spec of the external watcher interface):
the first sample becomes both old and current; afterwards the previous
current becomes old. -/
def watcherUpdate (p : Option DPair) (v : List Nat) : Option DPair :=
  match p with
  | none => some ⟨v, v⟩
  | some q => some ⟨q.current, v⟩

/-- `ProcessInfo::attach_process`: attach by executable name, then resolve
the UnityPlayer.dll module base and size; any failure aborts the attach. -/
def attach_process (e : Env) : Option ProcessInfo :=
  if e.procFound then
    match e.moduleBase with
    | none => none
    | some b =>
      match e.moduleSize with
      | none => none
      | some sz => some ⟨b, sz, none⟩
  else none

/-- `ProcessInfo::look_for_addresses`: signature scan, add 3, read a u32
there, and add 4 plus that (zero-extended) value, all in u64 arithmetic. -/
def look_for_addresses (e : Env) : Option MemoryPtr :=
  match e.scanHit with
  | none => none
  | some hit =>
    let ptr := (hit + 3) % u64Mod
    match e.mem.read32 ptr with
    | none => none
    | some d => some ⟨(ptr + 0x4 + d) % u64Mod⟩

/-- `State::init`: attach if unattached; tear the session down if the
process is closed; resolve addresses if unresolved; report whether the
session is attached with resolved addresses. -/
def State.init (s : State) (e : Env) : State × Bool :=
  let s' := if s.game.isNone then { s with game := attach_process e } else s
  match s'.game with
  | none => (s', false)
  | some g =>
    if e.isOpen = false then ({ s' with game := none }, false)
    else
      let g' := if g.addresses.isNone then { g with addresses := look_for_addresses e } else g
      ({ s' with game := some g' }, g'.addresses.isSome)

/-- `State::update`: chase the dialogue buffer and push the sample into the
watcher.  Returns without pushing when unattached or unresolved. -/
def State.update (s : State) (e : Env) : State :=
  match s.game with
  | none => s
  | some g =>
    match g.addresses with
    | none => s
    | some addresses =>
      let dialogue := chase e.mem addresses.dialogue_base_address
      { s with pair := watcherUpdate s.pair dialogue }

/-- Constant `START_SCRIBBLE` from lib.rs (90 u16 code units). -/
def START_SCRIBBLE : List Nat := [0x3C, 0x73, 0x74, 0x79, 0x6C, 0x65, 0x3D, 0x54, 0x68, 0x6F, 0x75, 0x67, 0x68, 0x74, 0x3E, 0x28, 0x48, 0x6F, 0x70, 0x65, 0x20, 0x70, 0x61, 0x73, 0x73, 0x65, 0x6E, 0x67, 0x65, 0x72, 0x73, 0x20, 0x63, 0x61, 0x6E, 0x20, 0x72, 0x65, 0x61, 0x64, 0x20, 0x6D, 0x79, 0x20, 0x73, 0x63, 0x72, 0x69, 0x62, 0x62, 0x6C, 0x65, 0x2026, 0x29, 0x3C, 0x2F, 0x73, 0x74, 0x79, 0x6C, 0x65, 0x3E, 0, 0, 0, 0, 0, 0, 0, 0, 0, 0, 0, 0, 0, 0, 0, 0, 0, 0, 0, 0, 0, 0, 0, 0, 0, 0, 0, 0]

/-- Constant `RESET` from lib.rs (90 u16 code units). -/
def RESET : List Nat := [0x3C, 0x73, 0x74, 0x79, 0x6C, 0x65, 0x3D, 0x54, 0x68, 0x6F, 0x75, 0x67, 0x68, 0x74, 0x3E, 0x28, 0x50, 0x68, 0x65, 0x77, 0x2C, 0x20, 0x6D, 0x61, 0x64, 0x65, 0x20, 0x69, 0x74, 0x20, 0x6F, 0x6E, 0x20, 0x74, 0x68, 0x65, 0x20, 0x74, 0x72, 0x61, 0x69, 0x6E, 0x20, 0x66, 0x69, 0x66, 0x74, 0x65, 0x65, 0x6E, 0x20, 0x6D, 0x69, 0x6E, 0x75, 0x74, 0x65, 0x73, 0x20, 0x61, 0x68, 0x65, 0x61, 0x64, 0x20, 0x6F, 0x66, 0x20, 0x73, 0x63, 0x68, 0x65, 0x64, 0x75, 0x6C, 0x65, 0x2E, 0x29, 0x3C, 0x2F, 0x73, 0x74, 0x79, 0x6C, 0x65, 0x3E, 0, 0, 0, 0]

/-- Constant `STATION_END` from lib.rs (90 u16 code units). -/
def STATION_END : List Nat := [0x45, 0x76, 0x65, 0x72, 0x79, 0x6F, 0x6E, 0x65, 0x2C, 0x20, 0x74, 0x6F, 0x20, 0x79, 0x6F, 0x75, 0x72, 0x20, 0x73, 0x74, 0x61, 0x74, 0x69, 0x6F, 0x6E, 0x73, 0x21, 0, 0, 0, 0, 0, 0, 0, 0, 0, 0, 0, 0, 0, 0, 0, 0, 0, 0, 0, 0, 0, 0, 0, 0, 0, 0, 0, 0, 0, 0, 0, 0, 0, 0, 0, 0, 0, 0, 0, 0, 0, 0, 0, 0, 0, 0, 0, 0, 0, 0, 0, 0, 0, 0, 0, 0, 0, 0, 0, 0, 0, 0, 0]

/-- Constant `END_AMY` from lib.rs (90 u16 code units). -/
def END_AMY : List Nat := [0x3C, 0x73, 0x74, 0x79, 0x6C, 0x65, 0x3D, 0x54, 0x68, 0x6F, 0x75, 0x67, 0x68, 0x74, 0x3E, 0x28, 0x49, 0x2019, 0x6C, 0x6C, 0x20, 0x6B, 0x65, 0x65, 0x70, 0x20, 0x65, 0x76, 0x65, 0x72, 0x79, 0x6F, 0x6E, 0x65, 0x20, 0x73, 0x61, 0x66, 0x65, 0x20, 0x43, 0x6F, 0x6E, 0x64, 0x75, 0x63, 0x74, 0x6F, 0x72, 0x2C, 0x20, 0x79, 0x6F, 0x75, 0x2019, 0x6C, 0x6C, 0x20, 0x73, 0x65, 0x65, 0x2E, 0x29, 0x3C, 0x2F, 0x73, 0x74, 0x79, 0x6C, 0x65, 0x3E, 0, 0, 0, 0, 0, 0, 0, 0, 0, 0, 0, 0, 0, 0, 0, 0, 0, 0, 0]

/-- Constant `END_KNUCKLES` from lib.rs (90 u16 code units). -/
def END_KNUCKLES : List Nat := [0x4F, 0x6E, 0x77, 0x61, 0x72, 0x64, 0x73, 0x21, 0, 0, 0, 0, 0, 0, 0, 0, 0, 0, 0, 0, 0, 0, 0, 0, 0, 0, 0, 0, 0, 0, 0, 0, 0, 0, 0, 0, 0, 0, 0, 0, 0, 0, 0, 0, 0, 0, 0, 0, 0, 0, 0, 0, 0, 0, 0, 0, 0, 0, 0, 0, 0, 0, 0, 0, 0, 0, 0, 0, 0, 0, 0, 0, 0, 0, 0, 0, 0, 0, 0, 0, 0, 0, 0, 0, 0, 0, 0, 0, 0, 0]

/-- Constant `END_ESPIO_VECTOR` from lib.rs (90 u16 code units). -/
def END_ESPIO_VECTOR : List Nat := [0x4F, 0x6B, 0x61, 0x79, 0x21, 0x20, 0x54, 0x68, 0x65, 0x20, 0x69, 0x6E, 0x76, 0x65, 0x73, 0x74, 0x69, 0x67, 0x61, 0x74, 0x69, 0x6F, 0x6E, 0x20, 0x63, 0x6F, 0x6E, 0x74, 0x69, 0x6E, 0x75, 0x65, 0x73, 0x21, 0, 0, 0, 0, 0, 0, 0, 0, 0, 0, 0, 0, 0, 0, 0, 0, 0, 0, 0, 0, 0, 0, 0, 0, 0, 0, 0, 0, 0, 0, 0, 0, 0, 0, 0, 0, 0, 0, 0, 0, 0, 0, 0, 0, 0, 0, 0, 0, 0, 0, 0, 0, 0, 0, 0, 0]

/-- Constant `END_BLAZE_ROUGE` from lib.rs (90 u16 code units). -/
def END_BLAZE_ROUGE : List Nat := [0x4C, 0x65, 0x74, 0x27, 0x73, 0x20, 0x64, 0x6F, 0x20, 0x69, 0x74, 0x21, 0, 0, 0, 0, 0, 0, 0, 0, 0, 0, 0, 0, 0, 0, 0, 0, 0, 0, 0, 0, 0, 0, 0, 0, 0, 0, 0, 0, 0, 0, 0, 0, 0, 0, 0, 0, 0, 0, 0, 0, 0, 0, 0, 0, 0, 0, 0, 0, 0, 0, 0, 0, 0, 0, 0, 0, 0, 0, 0, 0, 0, 0, 0, 0, 0, 0, 0, 0, 0, 0, 0, 0, 0, 0, 0, 0, 0, 0]

/-- Constant `END_SHADOW` from lib.rs (90 u16 code units). -/
def END_SHADOW : List Nat := [0x49, 0x74, 0x27, 0x73, 0x20, 0x6E, 0x6F, 0x77, 0x20, 0x6F, 0x72, 0x20, 0x6E, 0x65, 0x76, 0x65, 0x72, 0x21, 0, 0, 0, 0, 0, 0, 0, 0, 0, 0, 0, 0, 0, 0, 0, 0, 0, 0, 0, 0, 0, 0, 0, 0, 0, 0, 0, 0, 0, 0, 0, 0, 0, 0, 0, 0, 0, 0, 0, 0, 0, 0, 0, 0, 0, 0, 0, 0, 0, 0, 0, 0, 0, 0, 0, 0, 0, 0, 0, 0, 0, 0, 0, 0, 0, 0, 0, 0, 0, 0, 0, 0]

/-- Constant `END_SONIC` from lib.rs (90 u16 code units). -/
def END_SONIC : List Nat := [0x41, 0x68, 0x68, 0x21, 0x20, 0x41, 0x48, 0x48, 0x48, 0x48, 0x48, 0x48, 0x48, 0x48, 0x48, 0x21, 0x21, 0, 0, 0, 0, 0, 0, 0, 0, 0, 0, 0, 0, 0, 0, 0, 0, 0, 0, 0, 0, 0, 0, 0, 0, 0, 0, 0, 0, 0, 0, 0, 0, 0, 0, 0, 0, 0, 0, 0, 0, 0, 0, 0, 0, 0, 0, 0, 0, 0, 0, 0, 0, 0, 0, 0, 0, 0, 0, 0, 0, 0, 0, 0, 0, 0, 0, 0, 0, 0, 0, 0, 0, 0]

/-- Constant `SONIC_CHASE` from lib.rs (90 u16 code units). -/
def SONIC_CHASE : List Nat := [0x54, 0x69, 0x6D, 0x65, 0x20, 0x74, 0x6F, 0x20, 0x66, 0x69, 0x6E, 0x69, 0x73, 0x68, 0x20, 0x74, 0x68, 0x69, 0x73, 0x21, 0, 0, 0, 0, 0, 0, 0, 0, 0, 0, 0, 0, 0, 0, 0, 0, 0, 0, 0, 0, 0, 0, 0, 0, 0, 0, 0, 0, 0, 0, 0, 0, 0, 0, 0, 0, 0, 0, 0, 0, 0, 0, 0, 0, 0, 0, 0, 0, 0, 0, 0, 0, 0, 0, 0, 0, 0, 0, 0, 0, 0, 0, 0, 0, 0, 0, 0, 0, 0, 0]

/-- Constant `ENDING` from lib.rs (90 u16 code units). -/
def ENDING : List Nat := [0x59, 0x65, 0x61, 0x68, 0x2026, 0x20, 0x74, 0x68, 0x61, 0x74, 0x2019, 0x73, 0x20, 0x6A, 0x75, 0x73, 0x74, 0x20, 0x62, 0x65, 0x65, 0x6E, 0x20, 0x6D, 0x79, 0x20, 0x6C, 0x69, 0x66, 0x65, 0x21, 0, 0, 0, 0, 0, 0, 0, 0, 0, 0, 0, 0, 0, 0, 0, 0, 0, 0, 0, 0, 0, 0, 0, 0, 0, 0, 0, 0, 0, 0, 0, 0, 0, 0, 0, 0, 0, 0, 0, 0, 0, 0, 0, 0, 0, 0, 0, 0, 0, 0, 0, 0, 0, 0, 0, 0, 0, 0, 0]

/-- `State::is_loading`: always no opinion. -/
def State.is_loading (_ : State) : Option Bool := none

/-- `State::game_time`: always no opinion (the `Duration` payload is never
produced, so it is modelled opaquely). -/
def State.game_time (_ : State) : Option Unit := none

/-- `State::start`: master start toggle enabled, sample changed and the
current sample equals the start constant. -/
def State.start (s : State) : Bool :=
  match s.settings with
  | none => false
  | some settings =>
    if settings.start = false then false
    else
      match s.pair with
      | none => false
      | some dialogue => dialogue.changed && decide (dialogue.current = START_SCRIBBLE)

/-- `State::split`: sample changed and the previous sample equals one of the
nine checkpoint constants whose toggle is enabled; the Rust `match` on
`dialogue.old` is transcribed as sequential equality tests. -/
def State.split (s : State) : Bool :=
  match s.settings with
  | none => false
  | some settings =>
    match s.pair with
    | none => false
    | some dialogue =>
      dialogue.changed &&
        (if dialogue.old = STATION_END then settings.station
         else if dialogue.old = END_AMY then settings.closet
         else if dialogue.old = END_KNUCKLES then settings.saloon
         else if dialogue.old = END_ESPIO_VECTOR then settings.library
         else if dialogue.old = END_BLAZE_ROUGE then settings.casino
         else if dialogue.old = END_SHADOW then settings.lounge
         else if dialogue.old = END_SONIC then settings.conductor
         else if dialogue.old = SONIC_CHASE then settings.sonic_chase
         else if dialogue.old = ENDING then settings.ending
         else false)

/-- `State::reset`: master reset toggle enabled, sample changed and the
current sample equals the reset constant. -/
def State.reset (s : State) : Bool :=
  match s.settings with
  | none => false
  | some settings =>
    if settings.reset = false then false
    else
      match s.pair with
      | none => false
      | some dialogue => dialogue.changed && decide (dialogue.current = RESET)

/-- Timer commands caused by an `is_loading` answer: pause on `some true`,
resume on `some false`, nothing on `none`. -/
def loadingEvents (l : Option Bool) : List Event :=
  match l with
  | some b => if b then [Event.pauseGameTime] else [Event.resumeGameTime]
  | none => []

/-- Timer command caused by a `game_time` answer: set the game time when an
answer is present. -/
def gameTimeEvents (t : Option Unit) : List Event :=
  match t with
  | some _ => [Event.setGameTime]
  | none => []

/-- The decision part of the exported `update` entry point, applied to the
post-watcher-refresh state: the Running/Paused block (is_loading, game_time,
reset-else-split) followed by the NotRunning block (start, then is_loading
again).  `timer::reset()` moves the external timer to NotRunning and
`timer::start()` to Running; a split ends the run (Ended) exactly when the
environment says so.  Returns the final phase and the issued commands in
order. -/
def tickDecisions (s : State) (e : Env) : TimerState × List Event :=
  let phase := e.phase
  let step1 : TimerState × List Event :=
    if phase = TimerState.Running ∨ phase = TimerState.Paused then
      let evA := loadingEvents s.is_loading
      let evB := gameTimeEvents s.game_time
      if s.reset then (TimerState.NotRunning, evA ++ evB ++ [Event.resetTimer])
      else if s.split then
        (if e.splitEndsRun then TimerState.Ended else phase,
         evA ++ evB ++ [Event.splitTimer])
      else (phase, evA ++ evB)
    else (phase, [])
  if step1.1 = TimerState.NotRunning then
    if s.start then
      (TimerState.Running, step1.2 ++ [Event.startTimer] ++ loadingEvents s.is_loading)
    else step1
  else step1

/-- `autosplitter.settings.get_or_insert_with(Settings::register)`: register
and cache the flags on the first tick only. -/
def settingsStep (s : State) (e : Env) : State :=
  match s.settings with
  | none => { s with settings := some e.registeredSettings }
  | some _ => s

/-- The exported `update` entry point, one poll tick: settings step, init
(early return when it reports false), watcher refresh, then the timer
decisions.  Returns the new state, the final timer phase and the issued
timer commands. -/
def tick (s : State) (e : Env) : State × TimerState × List Event :=
  let s0 := settingsStep s e
  match State.init s0 e with
  | (s1, false) => (s1, e.phase, [])
  | (s1, true) =>
    let s2 := State.update s1 e
    let d := tickDecisions s2 e
    (s2, d.1, d.2)

/-- Modelled from the spec: sign extension of a 32-bit value, used by the
spec's description of the displacement read in `look_for_addresses`. -/
def sext32 (d : Nat) : Int := if d < 2 ^ 31 then (d : Int) else (d : Int) - 2 ^ 32

/-- Modelled from the spec: the resolution formula
`final = scan_hit + const_offset + const_offset_2 + sext(*(i32*)(scan_hit + const_offset))`
with const_offset = 3, const_offset_2 = 4 and a signed (sign-extended)
displacement, in wrapping u64 arithmetic. -/
def resolveAddrSigned (hit d : Nat) : Nat :=
  (((hit : Int) + 3 + 4 + sext32 d).emod (2 ^ 64)).toNat

/-- A fresh autosplitter state: nothing attached, no settings, empty pair. -/
def freshState : State := ⟨none, none, none⟩

/-- Memory on which every read fails. -/
def memNone : Mem := ⟨fun _ => none, fun _ => none, fun _ => none⟩

/-- Tick fixture for C1: the first chase read fails. -/
def c1state : State := ⟨some ⟨0, 100, some ⟨7⟩⟩, some Settings.defaults, some ⟨zero90, STATION_END⟩⟩

/-- Environment fixture for C1: attached, open, all chase reads fail,
timer Running. -/
def c1env : Env := ⟨true, some 0, some 100, true, none, memNone, TimerState.Running, false, Settings.defaults⟩

/-- Memory fixture for C2/C3: the chase succeeds and yields the start
constant. -/
def memStart : Mem := ⟨fun _ => some 0, fun _ => none, fun _ => some START_SCRIBBLE⟩

/-- Tick fixture for C2: attached and resolved, previous sample all-zero. -/
def c2state : State := ⟨some ⟨0, 100, some ⟨7⟩⟩, some Settings.defaults, some ⟨zero90, zero90⟩⟩

/-- Environment fixture for C2: timer NotRunning, chase yields the start
constant. -/
def c2env : Env := ⟨true, some 0, some 100, true, none, memStart, TimerState.NotRunning, false, Settings.defaults⟩

/-- Memory fixture for the first C3 tick: resolution succeeds (u32 read of 0
at address 3), chase fails. -/
def c3mem1 : Mem := ⟨fun _ => none, fun a => if a = 3 then some 0 else none, fun _ => none⟩

/-- Environment fixture for the first C3 tick: fresh attach and resolution,
operator flags all at their defaults. -/
def c3env1 : Env := ⟨true, some 0, some 100, true, some 0, c3mem1, TimerState.NotRunning, false, Settings.defaults⟩

/-- Operator flags after the operator disabled auto start. -/
def c3flags : Settings := { Settings.defaults with start := false }

/-- Environment fixture for the second C3 tick: the chase now yields the
start constant while the operator has auto start disabled. -/
def c3env2 : Env := ⟨true, some 0, some 100, true, some 0, memStart, TimerState.NotRunning, false, c3flags⟩

/-- Tick fixture for C4: attached but unresolved. -/
def c4state : State := ⟨some ⟨0, 100, none⟩, some Settings.defaults, none⟩

/-- Environment fixture for C4: open process, signature scan fails. -/
def c4env : Env := ⟨true, some 0, some 100, true, none, memNone, TimerState.Running, false, Settings.defaults⟩

/-- Tick fixture for C6 (decision level): previous sample is the station
checkpoint, current sample is the reset constant. -/
def c6state : State := ⟨some ⟨0, 100, some ⟨7⟩⟩, some Settings.defaults, some ⟨STATION_END, RESET⟩⟩

/-- Environment fixture for C6: timer Running. -/
def c6env : Env := ⟨true, some 0, some 100, true, none, memNone, TimerState.Running, false, Settings.defaults⟩

/-- Memory fixture for C7: the u32 read at address 3 yields a displacement
with the sign bit set. -/
def c7mem : Mem := ⟨fun _ => none, fun a => if a = 3 then some (2 ^ 31) else none, fun _ => none⟩

/-- Environment fixture for C7: signature scan hits at address 0. -/
def c7env : Env := ⟨true, some 0, some 100, true, some 0, c7mem, TimerState.NotRunning, false, Settings.defaults⟩

/-- Memory fixture for C8: the chase succeeds and yields the station
checkpoint constant on every tick. -/
def c8mem : Mem := ⟨fun _ => some 0, fun _ => none, fun _ => some STATION_END⟩

/-- Tick fixture for C8: attached and resolved. -/
def c8state : State := ⟨some ⟨0, 100, some ⟨7⟩⟩, some Settings.defaults, some ⟨zero90, zero90⟩⟩

/-- Environment fixture for C8: timer Running, stable memory. -/
def c8env : Env := ⟨true, some 0, some 100, true, none, c8mem, TimerState.Running, false, Settings.defaults⟩

/-- Memory fixture for the first C9 tick: resolution succeeds and the chase
yields the station checkpoint constant. -/
def c9mem1 : Mem := ⟨fun _ => some 0, fun a => if a = 3 then some 0 else none, fun _ => some STATION_END⟩

/-- Environment fixture for the first C9 tick: fresh attach, open. -/
def c9env1 : Env := ⟨true, some 0, some 100, true, some 0, c9mem1, TimerState.NotRunning, false, Settings.defaults⟩

/-- Environment fixture for the second C9 tick: the process reports
closed. -/
def c9env2 : Env := ⟨true, some 0, some 100, false, some 0, c9mem1, TimerState.NotRunning, false, Settings.defaults⟩

/-- Memory fixture for the third C9 tick: resolution succeeds, chase
fails. -/
def c9mem3 : Mem := ⟨fun _ => none, fun a => if a = 3 then some 0 else none, fun _ => none⟩

/-- Environment fixture for the third C9 tick: fresh attach after the
teardown, timer Running. -/
def c9env3 : Env := ⟨true, some 0, some 100, true, some 0, c9mem3, TimerState.Running, false, Settings.defaults⟩

/-- Memory fixture for C10: the chase yields the reset constant. -/
def c10mem : Mem := ⟨fun _ => some 0, fun _ => none, fun _ => some RESET⟩

/-- Tick fixture for C10: attached and resolved, previous sample all-zero. -/
def c10state : State := ⟨some ⟨0, 100, some ⟨7⟩⟩, some Settings.defaults, some ⟨zero90, zero90⟩⟩

/-- Environment fixture for C10: timer Running, chase yields the reset
constant. -/
def c10env : Env := ⟨true, some 0, some 100, true, none, c10mem, TimerState.Running, false, Settings.defaults⟩



/-! Helper lemmas shared by the claim theorems. -/

theorem settingsStep_game (s : State) (e : Env) : (settingsStep s e).game = s.game := by
  unfold settingsStep
  cases s.settings <;> rfl

theorem settingsStep_pair (s : State) (e : Env) : (settingsStep s e).pair = s.pair := by
  unfold settingsStep
  cases s.settings <;> rfl

theorem update_settings (s : State) (e : Env) : (State.update s e).settings = s.settings := by
  unfold State.update
  repeat' split
  all_goals rfl

theorem update_game (s : State) (e : Env) : (State.update s e).game = s.game := by
  unfold State.update
  repeat' split
  all_goals rfl

theorem init_resolved (s : State) (e : Env) (g : ProcessInfo) (a : MemoryPtr)
    (h1 : s.game = some g) (h2 : g.addresses = some a) (ho : e.isOpen = true) :
    State.init s e = (s, true) := by
  unfold State.init
  simp [h1, h2, ho]
  rw [← h1]

theorem update_resolved (s : State) (e : Env) (g : ProcessInfo) (a : MemoryPtr)
    (h1 : s.game = some g) (h2 : g.addresses = some a) :
    State.update s e =
      { s with pair := watcherUpdate s.pair (chase e.mem a.dialogue_base_address) } := by
  unfold State.update
  simp only [h1, h2]

theorem tick_resolved (s : State) (e : Env) (g : ProcessInfo) (a : MemoryPtr)
    (h1 : s.game = some g) (h2 : g.addresses = some a) (ho : e.isOpen = true) :
    tick s e =
      ({ settingsStep s e with
           pair := watcherUpdate s.pair (chase e.mem a.dialogue_base_address) },
       (tickDecisions
         { settingsStep s e with
             pair := watcherUpdate s.pair (chase e.mem a.dialogue_base_address) } e).1,
       (tickDecisions
         { settingsStep s e with
             pair := watcherUpdate s.pair (chase e.mem a.dialogue_base_address) } e).2) := by
  have h1' : (settingsStep s e).game = some g := by rw [settingsStep_game, h1]
  have hi := init_resolved (settingsStep s e) e g a h1' h2 ho
  have hu := update_resolved (settingsStep s e) e g a h1' h2
  simp only [tick]
  rw [hi]
  simp only []
  rw [hu, settingsStep_pair]

theorem reset_true_elim (s : State) (h : State.reset s = true) :
    ∃ d, s.pair = some d ∧ d.current = RESET ∧ d.changed = true := by
  unfold State.reset at h
  cases hs : s.settings with
  | none => rw [hs] at h; exact absurd h (by simp)
  | some st =>
    rw [hs] at h
    by_cases hf : st.reset = false
    · simp [hf] at h
    · simp [hf] at h
      cases hp : s.pair with
      | none => rw [hp] at h; exact absurd h (by simp)
      | some d =>
        rw [hp] at h
        simp [Bool.and_eq_true] at h
        exact ⟨d, rfl, h.2, h.1⟩

theorem start_true_elim (s : State) (h : State.start s = true) :
    ∃ d, s.pair = some d ∧ d.current = START_SCRIBBLE ∧ d.changed = true := by
  unfold State.start at h
  cases hs : s.settings with
  | none => rw [hs] at h; exact absurd h (by simp)
  | some st =>
    rw [hs] at h
    by_cases hf : st.start = false
    · simp [hf] at h
    · simp [hf] at h
      cases hp : s.pair with
      | none => rw [hp] at h; exact absurd h (by simp)
      | some d =>
        rw [hp] at h
        simp [Bool.and_eq_true] at h
        exact ⟨d, rfl, h.2, h.1⟩

theorem reset_start_exclusive (s : State) (h : State.reset s = true) :
    State.start s = false := by
  by_contra hne
  have hst : State.start s = true := by
    cases hx : State.start s
    · exact absurd hx hne
    · rfl
  obtain ⟨d, hp, hc, _⟩ := reset_true_elim s h
  obtain ⟨d', hp', hc', _⟩ := start_true_elim s hst
  rw [hp] at hp'
  injection hp' with hd
  rw [hd] at hc
  rw [hc'] at hc
  exact absurd hc (by decide)

theorem start_false_of_unchanged (s : State) (d : DPair)
    (hp : s.pair = some d) (hc : d.changed = false) : State.start s = false := by
  unfold State.start
  cases hs : s.settings with
  | none => rfl
  | some st =>
    by_cases hf : st.start = false
    · simp [hf]
    · simp [hf, hp, hc]

theorem split_false_of_unchanged (s : State) (d : DPair)
    (hp : s.pair = some d) (hc : d.changed = false) : State.split s = false := by
  unfold State.split
  cases hs : s.settings with
  | none => rfl
  | some st => simp [hp, hc]

theorem reset_false_of_unchanged (s : State) (d : DPair)
    (hp : s.pair = some d) (hc : d.changed = false) : State.reset s = false := by
  unfold State.reset
  cases hs : s.settings with
  | none => rfl
  | some st =>
    by_cases hf : st.reset = false
    · simp [hf]
    · simp [hf, hp, hc]

theorem tickDecisions_no_events (s : State) (e : Env)
    (h1 : State.reset s = false) (h2 : State.split s = false)
    (h3 : State.start s = false) : (tickDecisions s e).2 = [] := by
  unfold tickDecisions
  simp [State.is_loading, State.game_time, loadingEvents, gameTimeEvents, h1, h2, h3]

theorem init_pair (s : State) (e : Env) : ((State.init s e).1).pair = s.pair := by
  simp only [State.init]
  repeat' split
  all_goals rfl

theorem init_settings (s : State) (e : Env) : ((State.init s e).1).settings = s.settings := by
  simp only [State.init]
  repeat' split
  all_goals rfl

theorem init_unresolved_false (s : State) (e : Env) (g : ProcessInfo)
    (h1 : s.game = some g) (h2 : g.addresses = none)
    (h3 : look_for_addresses e = none) : (State.init s e).2 = false := by
  unfold State.init
  simp only [h1, Option.isNone_some, Bool.false_eq_true, if_false]
  by_cases ho : e.isOpen = false
  · simp [ho]
  · simp [ho, h2, h3]

theorem init_closed (s : State) (e : Env) (g : ProcessInfo)
    (h1 : s.game = some g) (ho : e.isOpen = false) :
    State.init s e = ({ s with game := none }, false) := by
  unfold State.init
  simp [h1, ho]

theorem tick_init_false (s : State) (e : Env)
    (h : (State.init (settingsStep s e) e).2 = false) :
    tick s e = ((State.init (settingsStep s e) e).1, e.phase, []) := by
  simp only [tick]
  rcases hinit : State.init (settingsStep s e) e with ⟨s1, b⟩
  rw [hinit] at h
  cases b
  · rfl
  · exact absurd h (by simp)

theorem tick_settings (s : State) (e : Env) :
    ((tick s e).1).settings = (settingsStep s e).settings := by
  simp only [tick]
  rcases hinit : State.init (settingsStep s e) e with ⟨s1, b⟩
  have hset : s1.settings = (settingsStep s e).settings := by
    have h := init_settings (settingsStep s e) e
    rw [hinit] at h
    exact h
  cases b
  · exact hset
  · rw [update_settings]
    exact hset

theorem watcherUpdate_current (p : Option DPair) (v : List Nat) :
    ∃ o, watcherUpdate p v = some ⟨o, v⟩ := by
  cases p
  · exact ⟨v, rfl⟩
  · exact ⟨_, rfl⟩

theorem start_false_of_current_ne (s : State) (d : DPair)
    (hp : s.pair = some d) (hc : ¬d.current = START_SCRIBBLE) : State.start s = false := by
  unfold State.start
  cases hs : s.settings with
  | none => rfl
  | some st =>
    by_cases hf : st.start = false
    · simp [hf]
    · simp [hf, hp, hc]

theorem reset_false_of_current_ne (s : State) (d : DPair)
    (hp : s.pair = some d) (hc : ¬d.current = RESET) : State.reset s = false := by
  unfold State.reset
  cases hs : s.settings with
  | none => rfl
  | some st =>
    by_cases hf : st.reset = false
    · simp [hf]
    · simp [hf, hp, hc]

theorem tick_cases (s : State) (e : Env) :
    (tick s e).2 = (e.phase, []) ∨
    ∃ s2, tick s e = (s2, (tickDecisions s2 e).1, (tickDecisions s2 e).2) := by
  simp only [tick]
  rcases hinit : State.init (settingsStep s e) e with ⟨s1, b⟩
  cases b
  · left; rfl
  · right; exact ⟨State.update s1 e, rfl⟩

theorem tickDecisions_reset_mem (s : State) (e : Env)
    (h : Event.resetTimer ∈ (tickDecisions s e).2) :
    Event.startTimer ∉ (tickDecisions s e).2 := by
  cases hr : State.reset s with
  | false =>
    exfalso
    revert h
    cases hph : e.phase <;> cases hsp : State.split s <;>
      cases hst : State.start s <;> cases hse : e.splitEndsRun <;>
      simp [tickDecisions, State.is_loading, State.game_time, loadingEvents,
            gameTimeEvents, hr, hsp, hst, hph, hse]
  | true =>
    have hst : State.start s = false := reset_start_exclusive s hr
    cases hph : e.phase <;>
      simp [tickDecisions, State.is_loading, State.game_time, loadingEvents,
            gameTimeEvents, hr, hst, hph]

theorem tickDecisions_start_mem (s : State) (e : Env)
    (h : Event.startTimer ∈ (tickDecisions s e).2) :
    (tickDecisions s e).1 = TimerState.Running ∧
      Event.pauseGameTime ∉ (tickDecisions s e).2 ∧
      Event.resumeGameTime ∉ (tickDecisions s e).2 := by
  revert h
  cases hph : e.phase <;> cases hr : State.reset s <;> cases hsp : State.split s <;>
    cases hst : State.start s <;> cases hse : e.splitEndsRun <;>
    simp [tickDecisions, State.is_loading, State.game_time, loadingEvents,
          gameTimeEvents, hr, hsp, hst, hph, hse]

/-- Claim C10: even though a reset moves the timer to NotRunning and the
same tick then evaluates the start condition, start never fires on a tick on
which reset fired, because start requires the current sample to equal the
start constant while reset requires it to equal the distinct reset
constant. -/
theorem C10_reset_excludes_start (s : State) (e : Env)
    (h : Event.resetTimer ∈ (tick s e).2.2) :
    Event.startTimer ∉ (tick s e).2.2 := by
  rcases tick_cases s e with hc | ⟨s2, hc⟩
  · rw [hc] at h
    exact absurd h (by simp)
  · rw [hc] at h ⊢
    exact tickDecisions_reset_mem s2 e h

theorem C10_witness : Event.startTimer ∉ (tick c10state c10env).2.2 :=
  C10_reset_excludes_start c10state c10env (by decide)

/-- Claim C6: within a single tick on which the phase is Running or Paused
and both the reset and the split conditions hold, the core issues a timer
reset and no split (reset takes priority). -/
theorem C6_reset_priority (s : State) (e : Env)
    (hph : e.phase = TimerState.Running ∨ e.phase = TimerState.Paused)
    (hr : State.reset s = true) (hsp : State.split s = true) :
    Event.resetTimer ∈ (tickDecisions s e).2 ∧
      Event.splitTimer ∉ (tickDecisions s e).2 := by
  have hst : State.start s = false := reset_start_exclusive s hr
  rcases hph with hph | hph <;>
    simp [tickDecisions, State.is_loading, State.game_time, loadingEvents,
          gameTimeEvents, hr, hst, hph]

theorem C6_witness :
    Event.resetTimer ∈ (tickDecisions c6state c6env).2 ∧
      Event.splitTimer ∉ (tickDecisions c6state c6env).2 :=
  C6_reset_priority c6state c6env (Or.inl rfl) (by decide) (by decide)

/-- Claim C5: the split decision is true iff the dialogue sample changed and
the previous sample exactly equals one of the nine checkpoint constants
whose gating toggle is enabled; a previous sample matching no constant
yields false. -/
theorem C5_split_iff (g : Option ProcessInfo) (st : Settings) (p : DPair) :
    State.split ⟨g, some st, some p⟩ = true ↔
      (p.changed = true ∧
        ((p.old = STATION_END ∧ st.station = true) ∨
         (p.old = END_AMY ∧ st.closet = true) ∨
         (p.old = END_KNUCKLES ∧ st.saloon = true) ∨
         (p.old = END_ESPIO_VECTOR ∧ st.library = true) ∨
         (p.old = END_BLAZE_ROUGE ∧ st.casino = true) ∨
         (p.old = END_SHADOW ∧ st.lounge = true) ∨
         (p.old = END_SONIC ∧ st.conductor = true) ∨
         (p.old = SONIC_CHASE ∧ st.sonic_chase = true) ∨
         (p.old = ENDING ∧ st.ending = true))) := by
  show (p.changed && _) = true ↔ _
  rw [Bool.and_eq_true]
  constructor
  · rintro ⟨hch, hm⟩
    refine ⟨hch, ?_⟩
    revert hm
    split_ifs with h1 h2 h3 h4 h5 h6 h7 h8 h9 <;> intro hm
    · exact Or.inl ⟨h1, hm⟩
    · exact Or.inr (Or.inl ⟨h2, hm⟩)
    · exact Or.inr (Or.inr (Or.inl ⟨h3, hm⟩))
    · exact Or.inr (Or.inr (Or.inr (Or.inl ⟨h4, hm⟩)))
    · exact Or.inr (Or.inr (Or.inr (Or.inr (Or.inl ⟨h5, hm⟩))))
    · exact Or.inr (Or.inr (Or.inr (Or.inr (Or.inr (Or.inl ⟨h6, hm⟩)))))
    · exact Or.inr (Or.inr (Or.inr (Or.inr (Or.inr (Or.inr (Or.inl ⟨h7, hm⟩))))))
    · exact Or.inr (Or.inr (Or.inr (Or.inr (Or.inr (Or.inr (Or.inr (Or.inl ⟨h8, hm⟩)))))))
    · exact Or.inr (Or.inr (Or.inr (Or.inr (Or.inr (Or.inr (Or.inr (Or.inr ⟨h9, hm⟩)))))))
    · exact absurd hm (by decide)
  · rintro ⟨hch, hm⟩
    refine ⟨hch, ?_⟩
    rcases hm with ⟨he, ht⟩ | ⟨he, ht⟩ | ⟨he, ht⟩ | ⟨he, ht⟩ | ⟨he, ht⟩ |
      ⟨he, ht⟩ | ⟨he, ht⟩ | ⟨he, ht⟩ | ⟨he, ht⟩ <;> rw [he]
    · rw [if_pos rfl]; exact ht
    · rw [if_neg (by decide), if_pos rfl]; exact ht
    · rw [if_neg (by decide), if_neg (by decide), if_pos rfl]; exact ht
    · rw [if_neg (by decide), if_neg (by decide), if_neg (by decide), if_pos rfl]
      exact ht
    · rw [if_neg (by decide), if_neg (by decide), if_neg (by decide),
          if_neg (by decide), if_pos rfl]
      exact ht
    · rw [if_neg (by decide), if_neg (by decide), if_neg (by decide),
          if_neg (by decide), if_neg (by decide), if_pos rfl]
      exact ht
    · rw [if_neg (by decide), if_neg (by decide), if_neg (by decide),
          if_neg (by decide), if_neg (by decide), if_neg (by decide), if_pos rfl]
      exact ht
    · rw [if_neg (by decide), if_neg (by decide), if_neg (by decide),
          if_neg (by decide), if_neg (by decide), if_neg (by decide),
          if_neg (by decide), if_pos rfl]
      exact ht
    · rw [if_neg (by decide), if_neg (by decide), if_neg (by decide),
          if_neg (by decide), if_neg (by decide), if_neg (by decide),
          if_neg (by decide), if_neg (by decide), if_pos rfl]
      exact ht

/-- Claim C8: two consecutive ticks of an attached, resolved session whose
raw memory reads are identical leave the second tick with an unchanged
watcher pair and no timer events. -/
theorem C8_idempotent (s : State) (e1 e2 : Env) (g : ProcessInfo) (a : MemoryPtr)
    (h1 : s.game = some g) (h2 : g.addresses = some a)
    (ho1 : e1.isOpen = true) (ho2 : e2.isOpen = true)
    (hm : e2.mem = e1.mem) :
    ∃ p : DPair, ((tick (tick s e1).1 e2).1).pair = some p ∧ p.changed = false ∧
      (tick (tick s e1).1 e2).2.2 = [] := by
  have ht1 := tick_resolved s e1 g a h1 h2 ho1
  obtain ⟨o1, hw1⟩ := watcherUpdate_current s.pair (chase e1.mem a.dialogue_base_address)
  have hg1 : ((tick s e1).1).game = some g := by
    rw [ht1]
    exact (settingsStep_game s e1).trans h1
  have hp1 : ((tick s e1).1).pair = some ⟨o1, chase e1.mem a.dialogue_base_address⟩ := by
    rw [ht1]
    exact hw1
  have ht2 := tick_resolved ((tick s e1).1) e2 g a hg1 h2 ho2
  have hw2 : watcherUpdate ((tick s e1).1).pair (chase e2.mem a.dialogue_base_address) =
      some ⟨chase e1.mem a.dialogue_base_address, chase e1.mem a.dialogue_base_address⟩ := by
    rw [hp1, hm]
    rfl
  have hchg : DPair.changed ⟨chase e1.mem a.dialogue_base_address,
      chase e1.mem a.dialogue_base_address⟩ = false := by
    simp [DPair.changed]
  rw [hw2] at ht2
  refine ⟨⟨chase e1.mem a.dialogue_base_address, chase e1.mem a.dialogue_base_address⟩,
    ?_, hchg, ?_⟩
  · rw [ht2]
  · rw [ht2]
    exact tickDecisions_no_events _ e2
      (reset_false_of_unchanged _ ⟨chase e1.mem a.dialogue_base_address,
        chase e1.mem a.dialogue_base_address⟩ rfl hchg)
      (split_false_of_unchanged _ ⟨chase e1.mem a.dialogue_base_address,
        chase e1.mem a.dialogue_base_address⟩ rfl hchg)
      (start_false_of_unchanged _ ⟨chase e1.mem a.dialogue_base_address,
        chase e1.mem a.dialogue_base_address⟩ rfl hchg)

theorem C8_witness :
    ∃ p : DPair, ((tick (tick c8state c8env).1 c8env).1).pair = some p ∧
      p.changed = false ∧ (tick (tick c8state c8env).1 c8env).2.2 = [] :=
  C8_idempotent c8state c8env c8env ⟨0, 100, some ⟨7⟩⟩ ⟨7⟩ rfl rfl rfl rfl rfl

/-- Claim C1 as stated is false: on a tick whose chase fails at the first
read, the current sample is all-zero, yet split fires because the previous
sample equals the station checkpoint constant. -/
theorem C1_counterexample :
    chaseRaw c1env.mem 7 = none ∧
    c1state.game = some ⟨0, 100, some ⟨7⟩⟩ ∧
    (tick c1state c1env).2.2 = [Event.splitTimer] := by
  refine ⟨rfl, rfl, ?_⟩
  decide

/-- Claim C1, amended: on every tick of an attached, resolved session whose
pointer chase fails at any step, the sample recorded as current is exactly
90 zero values and neither start nor reset fires on that tick (no constant
is all-zero); split may still fire when the previous sample matches an
enabled checkpoint constant. -/
theorem C1_chase_fail_zero_sample (s : State) (e : Env) (g : ProcessInfo) (a : MemoryPtr)
    (h1 : s.game = some g) (h2 : g.addresses = some a)
    (hfail : chaseRaw e.mem a.dialogue_base_address = none) :
    ∃ p : DPair, (State.update s e).pair = some p ∧ p.current = zero90 ∧
      State.start (State.update s e) = false ∧
      State.reset (State.update s e) = false := by
  have hu := update_resolved s e g a h1 h2
  have hch : chase e.mem a.dialogue_base_address = zero90 := by
    unfold chase
    rw [hfail]
    rfl
  obtain ⟨o, hw⟩ := watcherUpdate_current s.pair zero90
  have hp : (State.update s e).pair = some ⟨o, zero90⟩ := by
    rw [hu, hch]
    exact hw
  refine ⟨⟨o, zero90⟩, hp, rfl, ?_, ?_⟩
  · exact start_false_of_current_ne _ _ hp (show ¬zero90 = START_SCRIBBLE by decide)
  · exact reset_false_of_current_ne _ _ hp (show ¬zero90 = RESET by decide)

theorem C1_chase_fail_zero_sample_witness :
    ∃ p : DPair, (State.update c1state c1env).pair = some p ∧ p.current = zero90 ∧
      State.start (State.update c1state c1env) = false ∧
      State.reset (State.update c1state c1env) = false :=
  C1_chase_fail_zero_sample c1state c1env ⟨0, 100, some ⟨7⟩⟩ ⟨7⟩ rfl rfl rfl

/-- Claim C2 as stated is false: on a tick where the phase is NotRunning and
the start condition fires, the core issues only the timer start; it never
forces the elapsed-time counter into a paused state. -/
theorem C2_counterexample :
    c2env.phase = TimerState.NotRunning ∧
    (tick c2state c2env).2.2 = [Event.startTimer] ∧
    Event.pauseGameTime ∉ (tick c2state c2env).2.2 := by
  refine ⟨rfl, ?_, ?_⟩ <;> decide

/-- Claim C2, amended: when the start condition fires the core issues a
timer start and then re-evaluates is_loading; since is_loading is always
absent, no pause or resume of the elapsed-time counter is issued, and the
final phase is Running. -/
theorem C2_start_no_forced_pause (s : State) (e : Env)
    (h : Event.startTimer ∈ (tick s e).2.2) :
    (tick s e).2.1 = TimerState.Running ∧
      Event.pauseGameTime ∉ (tick s e).2.2 ∧
      Event.resumeGameTime ∉ (tick s e).2.2 := by
  rcases tick_cases s e with hc | ⟨s2, hc⟩
  · have : (tick s e).2.2 = [] := by rw [hc]
    rw [this] at h
    exact absurd h (by simp)
  · rw [hc] at h ⊢
    exact tickDecisions_start_mem s2 e h

theorem C2_start_no_forced_pause_witness :
    (tick c2state c2env).2.1 = TimerState.Running ∧
      Event.pauseGameTime ∉ (tick c2state c2env).2.2 ∧
      Event.resumeGameTime ∉ (tick c2state c2env).2.2 :=
  C2_start_no_forced_pause c2state c2env (by decide)

/-- Claim C3 as stated is false: the flags are registered and cached on the
first tick; on the second tick the operator has disabled the start toggle,
yet start still fires from the cached value. -/
theorem C3_counterexample :
    c3env2.registeredSettings.start = false ∧
    (tick (tick freshState c3env1).1 c3env2).2.2 = [Event.startTimer] := by
  refine ⟨rfl, ?_⟩
  decide

/-- Claim C3, amended: the eleven flags default to true and are read into
the cached settings record only on the first tick; once cached, a tick is
entirely independent of the operator's current flag values, so a toggle
changed between ticks has no effect on later decisions. -/
theorem C3_settings_cached (s : State) (e : Env) (st f : Settings)
    (h : s.settings = some st) :
    tick s { e with registeredSettings := f } = tick s e ∧
      ((tick s e).1).settings = some st ∧
      Settings.defaults = ⟨true, true, true, true, true, true, true, true, true, true, true⟩ := by
  have h1 : settingsStep s e = s := by
    unfold settingsStep
    rw [h]
  have h2 : settingsStep s { e with registeredSettings := f } = s := by
    unfold settingsStep
    rw [h]
  refine ⟨?_, ?_, rfl⟩
  · show tick s { e with registeredSettings := f } = tick s e
    unfold tick
    rw [h1, h2]
    rfl
  · rw [tick_settings, h1, h]

theorem C3_settings_cached_witness :
    tick c2state { c3env1 with registeredSettings := c3flags } = tick c2state c3env1 ∧
      ((tick c2state c3env1).1).settings = some Settings.defaults ∧
      Settings.defaults = ⟨true, true, true, true, true, true, true, true, true, true, true⟩ :=
  C3_settings_cached c2state c3env1 Settings.defaults c3flags rfl

/-- Claim C4 as stated is false: on an attached, open tick whose address
resolution fails, the tick returns early and no sample is pushed into the
watcher pair. -/
theorem C4_counterexample :
    c4state.game = some ⟨0, 100, none⟩ ∧
    c4env.isOpen = true ∧
    look_for_addresses c4env = none ∧
    ((tick c4state c4env).1).pair = none := by
  refine ⟨rfl, rfl, rfl, ?_⟩
  decide

/-- Claim C4, amended: the watcher is refreshed only on ticks where address
resolution has succeeded; while resolution is still failing, init reports
false and the tick returns early, leaving the watcher pair untouched and
issuing no events. -/
theorem C4_unresolved_no_refresh (s : State) (e : Env) (g : ProcessInfo)
    (h1 : s.game = some g) (h2 : g.addresses = none)
    (h3 : look_for_addresses e = none) :
    ((tick s e).1).pair = s.pair ∧ (tick s e).2.2 = [] := by
  have hg : (settingsStep s e).game = some g := by rw [settingsStep_game, h1]
  have hfalse : (State.init (settingsStep s e) e).2 = false :=
    init_unresolved_false (settingsStep s e) e g hg h2 h3
  have ht := tick_init_false s e hfalse
  constructor
  · rw [ht]
    show ((State.init (settingsStep s e) e).1).pair = s.pair
    rw [init_pair, settingsStep_pair]
  · rw [ht]

theorem C4_unresolved_no_refresh_witness :
    ((tick c4state c4env).1).pair = c4state.pair ∧ (tick c4state c4env).2.2 = [] :=
  C4_unresolved_no_refresh c4state c4env ⟨0, 100, none⟩ rfl rfl rfl

/-- Claim C7 as stated is false: the displacement is read as an unsigned
u32 and zero-extended; at displacement 2^31 the code's resolved address is
scan_hit + 7 + 2^31, not the sign-extended scan_hit + 7 - 2^31. -/
theorem C7_counterexample :
    look_for_addresses c7env = some ⟨7 + 2 ^ 31⟩ ∧
    resolveAddrSigned 0 (2 ^ 31) ≠ 7 + 2 ^ 31 := by
  refine ⟨?_, ?_⟩ <;> decide

/-- Claim C7, amended: address resolution computes
final = (scan_hit + 3) + 4 + d in wrapping u64 arithmetic, where d is the
32-bit displacement read at scan_hit + 3 interpreted as unsigned
(zero-extended, not sign-extended). -/
theorem C7_resolution_zero_extended (e : Env) (hit d : Nat)
    (hh : e.scanHit = some hit)
    (hd : e.mem.read32 ((hit + 3) % u64Mod) = some d) :
    look_for_addresses e = some ⟨((hit + 3) % u64Mod + 0x4 + d) % u64Mod⟩ := by
  unfold look_for_addresses
  rw [hh]
  simp [hd]

theorem C7_resolution_zero_extended_witness :
    look_for_addresses c7env = some ⟨((0 + 3) % u64Mod + 0x4 + 2 ^ 31) % u64Mod⟩ :=
  C7_resolution_zero_extended c7env 0 (2 ^ 31) rfl (by decide)

/-- Claim C9 as stated is false: the watcher pair is global and survives the
session teardown; after the process closes and a new session attaches, the
previous session's last sample acts as previous and here fires a split. -/
theorem C9_counterexample :
    ((tick (tick freshState c9env1).1 c9env2).1).game = none ∧
    ((tick (tick freshState c9env1).1 c9env2).1).pair = some ⟨STATION_END, STATION_END⟩ ∧
    (tick ((tick (tick freshState c9env1).1 c9env2).1) c9env3).2.2 = [Event.splitTimer] := by
  refine ⟨?_, ?_, ?_⟩ <;> decide

/-- Claim C9, amended: when the process reports closed, the session (the
game field) is cleared but the watcher pair is retained unchanged, so the
next session starts with the previous session's last sample as its
previous value. -/
theorem C9_pair_survives_teardown (s : State) (e : Env) (g : ProcessInfo)
    (h1 : s.game = some g) (ho : e.isOpen = false) :
    ((tick s e).1).game = none ∧ ((tick s e).1).pair = s.pair := by
  have hg : (settingsStep s e).game = some g := by rw [settingsStep_game, h1]
  have hi := init_closed (settingsStep s e) e g hg ho
  have hfalse : (State.init (settingsStep s e) e).2 = false := by rw [hi]
  have ht := tick_init_false s e hfalse
  rw [ht, hi]
  exact ⟨rfl, settingsStep_pair s e⟩

theorem C9_pair_survives_teardown_witness :
    ((tick c6state c9env2).1).game = none ∧ ((tick c6state c9env2).1).pair = c6state.pair :=
  C9_pair_survives_teardown c6state c9env2 ⟨0, 100, some ⟨7⟩⟩ rfl rfl

end SonicMurder
